import Mathlib

/-!
# Verification of the chloropath-map aggregation and resolution core

A shallow embedding of the core logic of the `chloropath-map` repository:

* `GeoConverter._identify_name_column` / `ChoroplethGenerator._identify_name_column`
  (region-name-column resolution, `geo_converter.py`),
* `GeoConverter.load_topojson` and `GeoConverter.merge_geojson_files`
  (multi-source loading and merging, `geo_converter.py`),
* `InteractiveMapCreator.calculate_point_averages`
  (point-in-polygon aggregation, `interactive_map_creator.py`),
* `get_color` (value-to-color mapping, `old_code/interactive_map.py`),
* `InteractiveMapCreator.add_data` / `ChoroplethGenerator.add_data`
  (attaching a data column to the region frame),
* `DataProcessing.process_data` (status-string to numeric conversion,
  `data_processing.py`).

Coordinates and data values are modelled as exact rationals (`ℚ`); a missing
value (Python `None` / pandas `NaN`) is modelled as `Option.none`; a Python
call that raises is modelled by returning `none`.

Shapely's `Point.within(polygon)` predicate (used by
`calculate_point_averages`) is the DE-9IM "within" relation, which for a
point and a simple polygon holds exactly when the point lies in the open
interior of the polygon: points on the boundary are NOT within.  It is
embedded below by the standard even-odd ray-crossing rule together with an
explicit boundary test, using exact rational arithmetic.
-/

namespace ChloroMap

/-- A planar point with exact rational coordinates (the idealisation of the
longitude/latitude floats used by the repository). -/
structure Pt where
  x : ℚ
  y : ℚ
deriving DecidableEq, Repr

/-- A polygon, given by its ring of vertices in order (the closing edge from
the last vertex back to the first is implicit, as in GeoJSON rings). -/
abbrev Polygon := List Pt

/-- The directed edges of a polygon ring: consecutive vertex pairs, plus the
closing edge from the last vertex back to the first. -/
def edges (poly : Polygon) : List (Pt × Pt) :=
  poly.zip (poly.drop 1 ++ poly.take 1)

/-- `onSeg p a b` holds when `p` lies on the closed segment from `a` to `b`:
the cross product of `b - a` and `p - a` vanishes (collinearity) and `p` is
inside the bounding box of the segment. -/
def onSeg (p a b : Pt) : Bool :=
  decide ((b.x - a.x) * (p.y - a.y) - (p.x - a.x) * (b.y - a.y) = 0) &&
  decide (min a.x b.x ≤ p.x) && decide (p.x ≤ max a.x b.x) &&
  decide (min a.y b.y ≤ p.y) && decide (p.y ≤ max a.y b.y)

/-- `p` lies on the topological boundary of the polygon: on one of its
edges. -/
def onBoundary (p : Pt) (poly : Polygon) : Bool :=
  (edges poly).any (fun e => onSeg p e.1 e.2)

/-- Even-odd crossing test for one edge: does the horizontal ray from `p`
towards `+x` cross the half-open edge `(a, b]` in `y`?  The sign comparison
`d ≷ 0` is the division-free form of `p.x < x-coordinate of the
intersection`. -/
def edgeCrosses (p a b : Pt) : Bool :=
  (decide (a.y > p.y) != decide (b.y > p.y)) &&
  (let d := (b.x - a.x) * (p.y - a.y) - (p.x - a.x) * (b.y - a.y)
   if a.y < b.y then decide (0 < d) else decide (d < 0))

/-- Shallow embedding of shapely's `point.within(polygon)` for a simple
polygon: the point lies in the open interior, i.e. it is not on the boundary
and the even-odd ray-crossing count is odd.  Boundary points are NOT
within. -/
def within (p : Pt) (poly : Polygon) : Bool :=
  !onBoundary p poly &&
  ((edges poly).countP (fun e => edgeCrosses p e.1 e.2) % 2 == 1)

/-- One feature row of a region GeoDataFrame: the resolved name-column entry
and the geometry. -/
structure Region where
  name : String
  poly : Polygon
deriving DecidableEq, Repr

/-- One row of the points DataFrame handed to `calculate_point_averages`:
longitude, latitude, and the entry of the value column (`none` models a
missing / NaN entry). -/
structure Obs where
  lon : ℚ
  lat : ℚ
  val : Option ℚ
deriving DecidableEq, Repr

/-- The shapely point built for an observation row:
`Point(xy) for xy in zip(points_df[lon_column], points_df[lat_column])`. -/
def obsPoint (p : Obs) : Pt := ⟨p.lon, p.lat⟩

/-- pandas `Series.mean()` with its default `skipna=True`: the mean over the
non-missing entries; `none` when every entry is missing (pandas returns NaN
there, which the rest of the pipeline treats as a missing value). -/
def seriesMean (vals : List (Option ℚ)) : Option ℚ :=
  let valid := vals.filterMap id
  if valid.length = 0 then none else some (valid.sum / valid.length)

/-- Shallow embedding of `InteractiveMapCreator.calculate_point_averages`
(`interactive_map_creator.py`, lines 383-416): for each region row, filter
the points whose geometry is `within` the region's polygon; if any, store
the mean of their value-column entries, otherwise store `None`.  The Python
result dict (keyed by region name, in region order) is modelled as the
association list in region order. -/
def calculate_point_averages (regions : List Region) (points : List Obs) :
    List (String × Option ℚ) :=
  regions.map (fun constituency =>
    let points_within := points.filter (fun p => within (obsPoint p) constituency.poly)
    if points_within.length > 0 then
      (constituency.name, seriesMean (points_within.map (fun p => p.val)))
    else
      (constituency.name, none))

/-- Spec-side definition (for the refinement statement of the aggregation
claim, from the spec's words): the arithmetic mean of the value field over
the observations contained in the region, and `none` for a region with zero
contained observations. -/
def specRegionMean (r : Region) (points : List Obs) : Option ℚ :=
  let contained := points.filter (fun p => within (obsPoint p) r.poly)
  if contained = [] then none
  else some ((contained.map (fun p => p.val.getD 0)).sum / contained.length)

/-! ### Concrete fixtures from the spec's end-to-end scenarios -/

/-- Square region A of the spec scenario: `[(0,0),(0,2),(2,2),(2,0)]`. -/
def squareA : Polygon := [⟨0,0⟩, ⟨0,2⟩, ⟨2,2⟩, ⟨2,0⟩]

/-- Square region B of the spec scenario: `[(2,0),(2,2),(4,2),(4,0)]`. -/
def squareB : Polygon := [⟨2,0⟩, ⟨2,2⟩, ⟨4,2⟩, ⟨4,0⟩]

/-- Region row A. -/
def regionA : Region := ⟨"A", squareA⟩

/-- Region row B. -/
def regionB : Region := ⟨"B", squareB⟩

/-- The spec scenario's observations: `(1,1,val=10), (3,1,val=20), (1,1,val=30)`. -/
def c1Obs : List Obs := [⟨1, 1, some 10⟩, ⟨3, 1, some 20⟩, ⟨1, 1, some 30⟩]

/-! ### Region-name-column resolution (`_identify_name_column`) -/

/-- One column of a GeoDataFrame, as seen by `_identify_name_column`: its
name and whether its dtype is pandas `object` (the string dtype). -/
structure Column where
  colName : String
  isObjectDtype : Bool
deriving DecidableEq, Repr

/-- The fixed priority list of well-known name columns, from
`geo_converter.py` line 243 (identical in `choropleth_generator.py` and
`interactive_map_creator.py`). -/
def priority_columns : List String := ["PCON13NM", "name", "NAME", "constituency_name"]

/-- `sub` occurs as a contiguous substring of `l` (Python's `sub in s` on the
character list). -/
def containsSub (sub : List Char) : List Char → Bool
  | [] => sub.isEmpty
  | c :: rest => List.isPrefixOf sub (c :: rest) || containsSub sub rest

/-- Python's `'name' in col.lower()`. -/
def hasNameSubstring (s : String) : Bool :=
  containsSub "name".data (s.data.map Char.toLower)

/-- Shallow embedding of `GeoConverter._identify_name_column`
(`geo_converter.py`, lines 237-258): first an exact scan of the fixed
priority list, then the first column whose lowercased name contains
`"name"`, then the first `object`-dtype column other than `geometry`; `none`
when no rule fires (the Python attribute stays `None`). -/
def identify_name_column (cols : List Column) : Option String :=
  match priority_columns.find? (fun c => cols.any (fun col => col.colName = c)) with
  | some c => some c
  | none =>
    match (cols.filter (fun col => hasNameSubstring col.colName)).head? with
    | some col => some col.colName
    | none =>
      (cols.find? (fun col => col.isObjectDtype && col.colName ≠ "geometry")).map
        (fun col => col.colName)

/-- Shallow embedding of `InteractiveMapCreator._identify_name_column` /
`ChoroplethGenerator._identify_name_column`, which share the first two rules
of the `GeoConverter` version but have no string-column fallback. -/
def identify_name_column_no_fallback (cols : List Column) : Option String :=
  match priority_columns.find? (fun c => cols.any (fun col => col.colName = c)) with
  | some c => some c
  | none => ((cols.filter (fun col => hasNameSubstring col.colName)).head?).map
      (fun col => col.colName)

/-! ### Multi-source loading and merging (`geo_converter.py`) -/

/-- Shallow embedding of `GeoConverter.load_topojson` (`geo_converter.py`,
lines 24-78) after the network layer: each entry of `downloads` is the
outcome of downloading and reading one URL (`none` when that source raised).
Failed sources only produce a printed warning; `success` is true when at
least one source loaded, and then the loaded frames are merged (the single
frame itself, or the concatenation).  The Python `False` return (no source
loaded) is the `none` result. -/
def load_topojson (downloads : List (Option (List Region))) : Option (List Region) :=
  match downloads.filterMap id with
  | [] => none
  | [gdf] => some gdf
  | gdfs => some gdfs.flatten

/-- Shallow embedding of the merge core of `GeoConverter.merge_geojson_files`
(`geo_converter.py`, lines 328-341): the frames read from the input files
are concatenated with `pd.concat(gdfs, ignore_index=True)` — nothing else is
done to them. -/
def merge_geojson_files (gdfs : List (List Region)) : List Region :=
  gdfs.flatten

/-! ### Value-to-color mapping (`get_color`, `old_code/interactive_map.py`) -/

/-- Lowercase hex digit for `n < 16`, as produced by Python's `'{:02x}'`. -/
def hexDigitChar (n : Nat) : Char :=
  if n < 10 then Char.ofNat (48 + n) else Char.ofNat (87 + n)

/-- Hex digits of `n` (most significant first), computed with an explicit
fuel argument (`fuel ≥ n` suffices) so that the definition is structural. -/
def natToHexCore : Nat → Nat → List Char
  | _, 0 => []
  | 0, _ => []
  | fuel + 1, n => natToHexCore fuel (n / 16) ++ [hexDigitChar (n % 16)]

/-- Lowercase hex representation of a natural number. -/
def natToHex (n : Nat) : String :=
  if n = 0 then "0" else String.mk (natToHexCore n n)

/-- Zero-pad to width 2, as Python's `'{:02x}'` does. -/
def pad2 (s : String) : String :=
  if s.length < 2 then "0" ++ s else s

/-- Python's `'{:02x}'.format(i)` (for a negative `i` Python prints a minus
sign and pads the total width to 2). -/
def hex2 (i : Int) : String :=
  pad2 (if i < 0 then "-" ++ natToHex i.natAbs else natToHex i.natAbs)

/-- Python's `int(q)`: truncation towards zero (`Int` division truncates
towards zero). -/
def ratTrunc (q : ℚ) : Int := q.num / (q.den : Int)

/-- Shallow embedding of `get_color` (`old_code/interactive_map.py`, lines
203-209) for a scale with domain `[min_value, max_value]`.  A missing value
(NaN, modelled `none`) maps to the fixed gray `"#CCCCCC"`.  A present value
is normalized to `(value - min) / (max - min)` and rendered as
`'#%02x%02x00'` of the red/green channels.  When `max_value - min_value = 0`
the Python code raises (`ZeroDivisionError` on ints; `float` division
produces NaN/inf and then `int()` raises), so the embedding returns
`none`. -/
def get_color (min_value max_value : ℚ) (value : Option ℚ) : Option String :=
  match value with
  | none => some "#CCCCCC"
  | some v =>
    if max_value - min_value = 0 then none
    else
      let normalized := (v - min_value) / (max_value - min_value)
      some ("#" ++ hex2 (ratTrunc (255 * (1 - normalized)))
                ++ hex2 (ratTrunc (255 * normalized)) ++ "00")

/-! ### Status-string conversion (`data_processing.py`) -/

/-- The `status_to_num` mapping of `DataProcessing.process_data`
(`data_processing.py`, lines 70-80): known status strings map to their
numeric score, anything else to `None`. -/
def status_to_num (s : String) : Option ℚ :=
  if s = "Stellar" then some 4
  else if s = "Good" then some 3
  else if s = "Average" then some 2
  else if s = "Poor" then some 1
  else if s = "None" then some 0
  else none

/-- One geocoded client row before status conversion. -/
structure RawClient where
  lon : ℚ
  lat : ℚ
  status : String
deriving DecidableEq, Repr

/-- The status-conversion step of `DataProcessing.process_data`
(`data_processing.py`, line 80): `status.apply(lambda x: status_to_num[x] if
x in status_to_num else None)`, producing the observation rows that
`calculate_point_averages` consumes. -/
def process_status (clients : List RawClient) : List Obs :=
  clients.map (fun c => ⟨c.lon, c.lat, status_to_num c.status⟩)

/-! ### Attaching a data column (`add_data`) -/

/-- One row of the region GeoDataFrame before `add_data`: the resolved name
column, the other property columns, and the geometry. -/
structure GeoRow where
  rowName : String
  attrs : List (String × String)
  geom : Polygon
deriving DecidableEq, Repr

/-- Shallow embedding of `InteractiveMapCreator.add_data` /
`ChoroplethGenerator.add_data` (identical bodies): first the new column is
created filled with `np.nan` (`none`), then each row whose name-column entry
is a key of `data_values` gets its mapped value.  The Python dict
`data_values` is modelled as a lookup function. -/
def add_data (rows : List GeoRow) (data_values : String → Option ℚ) :
    List (GeoRow × Option ℚ) :=
  let initialized := rows.map (fun r => (r, (none : Option ℚ)))
  initialized.map (fun rc =>
    match data_values rc.1.rowName with
    | some v => (rc.1, some v)
    | none => rc)

/-! ### Further concrete fixtures for the claims -/

/-- The boundary observation of the spec's second end-to-end scenario: a
point at exactly `(2,1)`, on the edge shared by squares A and B. -/
def boundaryObs : Obs := ⟨2, 1, some 7⟩

/-- The field set `{label, region_label, geometry}` (both data columns
string-typed, the geometry column of geometry dtype). -/
def c5Cols : List Column := [⟨"label", true⟩, ⟨"region_label", true⟩, ⟨"geometry", false⟩]

/-- The field set `{id, geometry}` with a numeric `id` column: no name-like
field and no string column. -/
def c5ColsNum : List Column := [⟨"id", false⟩, ⟨"geometry", false⟩]

/-- The field set `{PCON13NM, area_id, geometry}`. -/
def c6Cols : List Column := [⟨"PCON13NM", true⟩, ⟨"area_id", true⟩, ⟨"geometry", false⟩]

/-- Client rows inside square A whose statuses are `Good` (3), an
unrecognized string, and `Stellar` (4). -/
def c9Clients : List RawClient := [⟨1, 1, "Good"⟩, ⟨1, 1, "Unknown"⟩, ⟨1, 1, "Stellar"⟩]

/-! ## Helper lemmas -/

/-- Evaluation: the interior point `(1,1)` is within square A. -/
lemma within_11_A : within ⟨1,1⟩ squareA = true := by
  norm_num [within, onBoundary, edges, squareA, onSeg, edgeCrosses,
    List.countP_cons, List.countP_nil]

/-- Evaluation: `(3,1)` is not within square A. -/
lemma within_31_A : within ⟨3,1⟩ squareA = false := by
  norm_num [within, onBoundary, edges, squareA, onSeg, edgeCrosses,
    List.countP_cons, List.countP_nil]

/-- Evaluation: `(1,1)` is not within square B. -/
lemma within_11_B : within ⟨1,1⟩ squareB = false := by
  norm_num [within, onBoundary, edges, squareB, onSeg, edgeCrosses,
    List.countP_cons, List.countP_nil]

/-- Evaluation: the interior point `(3,1)` is within square B. -/
lemma within_31_B : within ⟨3,1⟩ squareB = true := by
  norm_num [within, onBoundary, edges, squareB, onSeg, edgeCrosses,
    List.countP_cons, List.countP_nil]

/-- Evaluation: the boundary point `(2,1)` lies on square A's boundary. -/
lemma onBoundary_21_A : onBoundary ⟨2,1⟩ squareA = true := by
  norm_num [onBoundary, edges, squareA, onSeg]

/-- Evaluation: the boundary point `(2,1)` lies on square B's boundary. -/
lemma onBoundary_21_B : onBoundary ⟨2,1⟩ squareB = true := by
  norm_num [onBoundary, edges, squareB, onSeg]

/-- Extracting the present values of an all-present value column. -/
lemma filterMap_vals_of_all_some (l : List Obs) (h : ∀ p ∈ l, p.val ≠ none) :
    (l.map (fun p => p.val)).filterMap id = l.map (fun p => p.val.getD 0) := by
  induction l with
  | nil => simp
  | cons p rest ih =>
    have hp := h p (by simp)
    obtain ⟨v, hv⟩ := Option.ne_none_iff_exists'.mp hp
    simp only [List.map_cons, List.filterMap_cons, hv, id_eq, Option.getD_some]
    exact congrArg (v :: ·) (ih (fun q hq => h q (by simp [hq])))

/-- `seriesMean` over an all-present value column is the arithmetic mean. -/
lemma seriesMean_of_all_some (l : List Obs) (h : ∀ p ∈ l, p.val ≠ none) (hne : l ≠ []) :
    seriesMean (l.map (fun p => p.val))
      = some ((l.map (fun p => p.val.getD 0)).sum / l.length) := by
  have hfm := filterMap_vals_of_all_some l h
  simp only [seriesMean, hfm, List.length_map]
  rw [if_neg (by simpa [List.length_eq_zero] using hne)]

/-- A missing value contributes nothing to `seriesMean`. -/
lemma seriesMean_none_cons (l : List (Option ℚ)) :
    seriesMean (none :: l) = seriesMean l := by
  simp [seriesMean, List.filterMap_cons]

/-- Evaluation of the status-conversion step on the C9 client rows: `Good`
maps to 3, the unrecognized string to `None`, `Stellar` to 4. -/
lemma process_status_c9 :
    process_status c9Clients = [⟨1, 1, some 3⟩, ⟨1, 1, none⟩, ⟨1, 1, some 4⟩] := by
  decide

/-! ## The claims -/

/-- **C1.** For every region set with a resolved name column and every
observation sequence whose value field is present on every row, the
aggregation maps each region to the arithmetic mean of the value field over
the observations contained in that region, and maps a region with zero
contained observations to `None` (never 0); in particular, on the spec's
two-square scenario with observations `(1,1,10), (3,1,20), (1,1,30)` the
result is `{A ↦ 20, B ↦ 20}`. -/
theorem C1_aggregate_is_mean :
    (∀ (regions : List Region) (points : List Obs),
       (∀ p ∈ points, p.val ≠ none) →
       calculate_point_averages regions points
         = regions.map (fun r => (r.name, specRegionMean r points)))
    ∧ calculate_point_averages [regionA, regionB] c1Obs
        = [("A", some 20), ("B", some 20)] := by
  constructor
  · intro regions points h
    unfold calculate_point_averages specRegionMean
    refine List.map_congr_left (fun r _ => ?_)
    set contained := points.filter (fun p => within (obsPoint p) r.poly) with hc
    by_cases hemp : contained = []
    · simp [hemp]
    · have hlen : contained.length > 0 := List.length_pos.mpr hemp
      have hall : ∀ p ∈ contained, p.val ≠ none := by
        intro p hp
        exact h p (List.mem_of_mem_filter hp)
      simp only [if_pos hlen, if_neg hemp]
      rw [seriesMean_of_all_some contained hall hemp]
  · norm_num [calculate_point_averages, regionA, regionB, c1Obs, obsPoint, seriesMean,
      within_11_A, within_31_A, within_11_B, within_31_B,
      List.filter_cons, List.filter_nil, List.filterMap_cons, List.filterMap_nil]
    simp

/-- Witness for C1: the general statement applied to the concrete scenario
(all three observations have a present value). -/
theorem C1_aggregate_is_mean_witness :
    (∀ p ∈ c1Obs, p.val ≠ none) ∧
    calculate_point_averages [regionA, regionB] c1Obs
      = [regionA, regionB].map (fun r => (r.name, specRegionMean r c1Obs)) :=
  ⟨by decide, C1_aggregate_is_mean.1 [regionA, regionB] c1Obs (by decide)⟩

/-- **C2 (counterexample).** The claim says an observation at exactly
`(2,1)` — on the boundary shared by squares A and B — is counted as
contained in BOTH regions.  In the code, containment is shapely's `within`,
which excludes boundary points: `(2,1)` is within neither square, and the
aggregation over that single observation yields `None` for both regions
(the claimed behaviour would yield `7` for both). -/
theorem C2_boundary_counterexample :
    within ⟨2,1⟩ squareA = false ∧ within ⟨2,1⟩ squareB = false ∧
    calculate_point_averages [regionA, regionB] [boundaryObs]
      = [("A", none), ("B", none)] := by
  refine ⟨by simp [within, onBoundary_21_A], by simp [within, onBoundary_21_B], ?_⟩
  simp [calculate_point_averages, regionA, regionB, boundaryObs, obsPoint,
    List.filter_cons, within, onBoundary_21_A, onBoundary_21_B]

/-- **C2 (amended).** Point-in-region membership in the aggregation is
boundary-EXCLUSIVE: `within` is false for every point on a polygon's
boundary, so an observation lying exactly on the boundary shared by two
regions is counted in NEITHER region; in particular an observation at
`(2,1)` on the shared edge of squares A and B contributes to neither mean,
and both regions aggregate to `None`. -/
theorem C2_boundary_exclusive :
    (∀ (p : Pt) (poly : Polygon), onBoundary p poly = true → within p poly = false)
    ∧ onBoundary ⟨2,1⟩ squareA = true
    ∧ onBoundary ⟨2,1⟩ squareB = true
    ∧ calculate_point_averages [regionA, regionB] [boundaryObs]
        = [("A", none), ("B", none)] := by
  refine ⟨fun p poly h => by simp [within, h], onBoundary_21_A, onBoundary_21_B, ?_⟩
  simp [calculate_point_averages, regionA, regionB, boundaryObs, obsPoint,
    List.filter_cons, within, onBoundary_21_A, onBoundary_21_B]

/-- Witness for C2 (amended): the boundary-exclusivity rule applied to the
concrete boundary point `(2,1)` on square A. -/
theorem C2_boundary_exclusive_witness :
    onBoundary ⟨2,1⟩ squareA = true ∧ within ⟨2,1⟩ squareA = false :=
  ⟨onBoundary_21_A, C2_boundary_exclusive.1 ⟨2,1⟩ squareA onBoundary_21_A⟩

/-- **C3 (counterexample).** The claim says merging deduplicates by region
name, keeping the first-encountered region and discarding the rest, and
that the output count equals the sum of input counts only when no names
collide.  In the code, merging two single-region files whose regions share
the name `"X"` keeps BOTH regions: nothing is discarded, and the output
count is `2`, the full sum, despite the collision. -/
theorem C3_merge_counterexample :
    merge_geojson_files [[⟨"X", squareA⟩], [⟨"X", squareB⟩]]
      = [⟨"X", squareA⟩, ⟨"X", squareB⟩] ∧
    merge_geojson_files [[⟨"X", squareA⟩], [⟨"X", squareB⟩]] ≠ [⟨"X", squareA⟩] ∧
    (merge_geojson_files [[⟨"X", squareA⟩], [⟨"X", squareB⟩]]).length = 2 := by
  refine ⟨rfl, ?_, rfl⟩
  decide

/-- **C3 (amended).** Merging region sets concatenates them as-is: no
deduplication by name takes place, every input region appears in the output
(regions sharing a name are all kept), and the output region count always
EQUALS the sum of the input counts, whether or not names collide. -/
theorem C3_merge_is_concat (gdfs : List (List Region)) :
    (merge_geojson_files gdfs).length = (gdfs.map List.length).sum ∧
    ∀ r : Region, r ∈ merge_geojson_files gdfs ↔ ∃ gdf ∈ gdfs, r ∈ gdf := by
  constructor
  · simp [merge_geojson_files]
  · intro r
    simp [merge_geojson_files, List.mem_flatten]

/-- **C4.** Loading multiple geometry sources fails (returns `None`, the
Python `False`) if and only if every given source failed to load — including
the empty-input case; and whenever at least one source loads, the result is
the merged concatenation of the successfully loaded frames (per-source
failures are only printed warnings). -/
theorem C4_load_fails_iff_all_fail (downloads : List (Option (List Region))) :
    (load_topojson downloads = none ↔ ∀ d ∈ downloads, d = none) ∧
    (load_topojson downloads ≠ none →
      load_topojson downloads = some (downloads.filterMap id).flatten) := by
  have hiff : downloads.filterMap id = [] ↔ ∀ d ∈ downloads, d = none := by
    simp [List.filterMap_eq_nil_iff]
  constructor
  · rw [← hiff]
    unfold load_topojson
    cases hfm : downloads.filterMap id with
    | nil => simp
    | cons g rest =>
      cases rest with
      | nil => simp
      | cons g2 rest2 => simp
  · intro hne
    unfold load_topojson at hne ⊢
    cases hfm : downloads.filterMap id with
    | nil => rw [hfm] at hne; simp at hne
    | cons g rest =>
      cases rest with
      | nil => simp
      | cons g2 rest2 => simp

/-- Witness for C4: two sources of which exactly one loads — the load
succeeds and returns that source's regions. -/
theorem C4_load_fails_iff_all_fail_witness :
    (load_topojson [some [regionA], none] ≠ none) ∧
    load_topojson [some [regionA], none]
      = some (([some [regionA], none].filterMap id).flatten) :=
  ⟨by decide, (C4_load_fails_iff_all_fail [some [regionA], none]).2 (by decide)⟩

/-- **C5 (counterexample).** The claim says the resolver maps the field set
`{label, region_label, geometry}` to `region_label` via the substring rule.
In the code, neither `label` nor `region_label` contains the substring
`"name"`, so the substring rule does not fire; the string-column fallback
returns the FIRST string column, `label`. -/
theorem C5_substring_counterexample :
    identify_name_column c5Cols ≠ some "region_label" ∧
    identify_name_column c5Cols = some "label" ∧
    hasNameSubstring "region_label" = false := by
  refine ⟨?_, by decide, by decide⟩
  decide

/-- **C5 (amended).** On a field set with no priority-list hit and no field
whose lowercase form contains `"name"`, the resolver falls back to the first
string-typed non-geometry field: given `{label, region_label, geometry}` it
resolves to `label` (neither field contains `"name"`, so the substring rule
does not apply), and given `{id, geometry}` with a numeric `id` and no
name-like field it returns unresolved (`none`) without crashing. -/
theorem C5_fallback_rule :
    identify_name_column c5Cols = some "label" ∧
    identify_name_column c5ColsNum = none ∧
    hasNameSubstring "label" = false ∧
    hasNameSubstring "region_label" = false := by
  decide

/-- **C6.** Exact match against the fixed priority list is tried first and
wins over the substring and fallback rules: every field set containing
`PCON13NM` resolves to `PCON13NM`, in all three copies of the resolver
(with and without the string-column fallback). -/
theorem C6_priority_list_first (cols : List Column)
    (h : cols.any (fun col => col.colName = "PCON13NM") = true) :
    identify_name_column cols = some "PCON13NM" ∧
    identify_name_column_no_fallback cols = some "PCON13NM" := by
  have hfind :
      priority_columns.find? (fun c => cols.any (fun col => col.colName = c))
        = some "PCON13NM" := by
    rw [priority_columns]
    exact List.find?_cons_of_pos _ h
  constructor
  · rw [identify_name_column, hfind]
  · rw [identify_name_column_no_fallback, hfind]

/-- Witness for C6: the field set `{PCON13NM, area_id, geometry}` resolves
to `PCON13NM`. -/
theorem C6_priority_list_first_witness :
    identify_name_column c6Cols = some "PCON13NM" ∧
    identify_name_column_no_fallback c6Cols = some "PCON13NM" :=
  C6_priority_list_first c6Cols (by decide)

/-- **C7 (counterexample).** The claim says that on a degenerate domain
(`min = max`) mapping a present value never raises and returns the first
stop's color.  In the code, `get_color` divides by `max_value - min_value`
with no degenerate-domain guard, so for the scale with `min = max = 5` the
call on the present value `5` raises (modelled as `none`) instead of
returning a color. -/
theorem C7_degenerate_counterexample : get_color 5 5 (some 5) = none := by
  norm_num [get_color]

/-- **C7 (amended).** For every color scale whose domain is degenerate
(`min = max`), mapping any PRESENT value raises (the normalization divides
by zero; no color — in particular not the first stop's color — is
returned); only a missing value still gets a color, the fixed gray
sentinel. -/
theorem C7_degenerate_domain_raises (m v : ℚ) :
    get_color m m (some v) = none ∧ get_color m m none = some "#CCCCCC" := by
  constructor
  · simp [get_color]
  · rfl

/-- **C8.** For every scale, mapping a missing (`None`/NaN) value returns
the fixed sentinel no-data color `"#CCCCCC"`, and that sentinel is never
equal to any color produced for a present value: every produced gradient
color ends in the blue channel `"00"`, while the sentinel ends in `"CC"`. -/
theorem C8_missing_maps_to_sentinel :
    (∀ minv maxv : ℚ, get_color minv maxv none = some "#CCCCCC") ∧
    (∀ (minv maxv v : ℚ) (c : String),
       get_color minv maxv (some v) = some c → c ≠ "#CCCCCC") := by
  constructor
  · intro minv maxv
    rfl
  · intro minv maxv v c h
    simp only [get_color] at h
    by_cases hd : maxv - minv = 0
    · rw [if_pos hd] at h
      exact absurd h (by simp)
    · rw [if_neg hd] at h
      rw [← Option.some.inj h]
      intro heq
      have h2 := congrArg (fun t => t.data.getLast?) heq
      simp only [String.data_append] at h2
      rw [List.getLast?_append_of_ne_nil _ (by decide)] at h2
      simp at h2

/-- Witness for C8: on the scale `[0, 10]` the present value `0` maps to
`"#ff0000"`, which differs from the sentinel. -/
theorem C8_missing_maps_to_sentinel_witness :
    get_color 0 10 (some 0) = some "#ff0000" ∧ "#ff0000" ≠ "#CCCCCC" := by
  have hval : get_color 0 10 (some 0) = some "#ff0000" := by
    have h1 : ratTrunc (255 * (1 - (0 - 0) / (10 - 0))) = 255 := by norm_num [ratTrunc]
    have h2 : ratTrunc (255 * ((0 - 0) / (10 - 0))) = 0 := by norm_num [ratTrunc]
    simp only [get_color]
    rw [if_neg (by norm_num), h1, h2]
    decide
  exact ⟨hval, C8_missing_maps_to_sentinel.2 0 10 0 "#ff0000" hval⟩

/-- **C9.** Observations whose value field is missing (or whose status
string is not a recognized numeric status, which `process_data` converts to
`None`) are excluded from the mean of the region that contains them: adding
such an observation changes no region's aggregate, it is not counted as
zero, and it never makes the aggregation fail.  Concretely, three
observations inside square A with statuses `Good` (3), an unrecognized
string, and `Stellar` (4) aggregate to `(3+4)/2 = 7/2`, not `7/3`. -/
theorem C9_missing_values_excluded :
    (∀ (regions : List Region) (points : List Obs) (p : Obs),
       p.val = none →
       calculate_point_averages regions (p :: points)
         = calculate_point_averages regions points) ∧
    calculate_point_averages [regionA] (process_status c9Clients)
      = [("A", some (7/2))] := by
  constructor
  · intro regions points p hp
    unfold calculate_point_averages
    refine List.map_congr_left (fun r _ => ?_)
    by_cases hw : within (obsPoint p) r.poly = true
    · simp only [List.filter_cons, hw, if_pos]
      set contained := points.filter (fun q => within (obsPoint q) r.poly) with hc
      by_cases hemp : contained = []
      · simp [hemp, hp, seriesMean]
      · have hlen : contained.length > 0 := List.length_pos.mpr hemp
        simp only [List.length_cons]
        rw [if_pos (Nat.succ_pos _), if_pos hlen]
        simp [hp, seriesMean_none_cons]
    · simp only [List.filter_cons, hw]
      simp
  · rw [process_status_c9]
    norm_num [calculate_point_averages, regionA, obsPoint, seriesMean, within_11_A,
      List.filter_cons, List.filter_nil, List.filterMap_cons, List.filterMap_nil]
    simp

/-- Witness for C9: prepending an observation with a missing value leaves
the aggregate of the concrete scenario unchanged. -/
theorem C9_missing_values_excluded_witness :
    ((⟨5, 5, none⟩ : Obs).val = none) ∧
    calculate_point_averages [regionA] ((⟨5, 5, none⟩ : Obs) :: c1Obs)
      = calculate_point_averages [regionA] c1Obs :=
  ⟨rfl, C9_missing_values_excluded.1 [regionA] c1Obs ⟨5, 5, none⟩ rfl⟩

/-- **C10.** `add_data` on a loaded region frame with a resolved name
column adds exactly one new column and changes nothing else: row `r` of the
result is the unchanged input row paired with the new column's entry, which
is the supplied mapping's value at the row's name when present and the
missing marker (NaN, modelled `none`) when the name is absent; no row is
dropped, reordered, or modified. -/
theorem C10_add_data_frame_effect (rows : List GeoRow) (data_values : String → Option ℚ) :
    add_data rows data_values = rows.map (fun r => (r, data_values r.rowName)) ∧
    (add_data rows data_values).map Prod.fst = rows ∧
    (add_data rows data_values).length = rows.length := by
  have hmain : add_data rows data_values
      = rows.map (fun r => (r, data_values r.rowName)) := by
    unfold add_data
    rw [List.map_map]
    refine List.map_congr_left (fun r _ => ?_)
    cases h : data_values r.rowName <;> simp [h, Function.comp]
  refine ⟨hmain, ?_, ?_⟩
  · rw [hmain, List.map_map]
    simp [Function.comp_def]
  · rw [hmain, List.length_map]

end ChloroMap
